import Mathlib

/-!
Verification of the SOC risk engine's scoring core
(`risk_engine/calculator.py` and the verdict-extraction and score-parsing
helpers of `risk_engine/clients/cortex.py`).

Modelling conventions:
* Python floats are modelled as rationals (ℚ).  Python's `round(x, n)`
  is modelled as round-half-up on ℚ; it agrees with Python everywhere
  except exact ties (Python uses bankers' rounding on binary floats),
  and no statement below depends on a tie.
* The `config` module is external configuration (spec §1, §6); it is
  modelled as an explicit `Config` value passed to every function.
* The `models` module (plain dataclasses) is modelled as Lean structures.
* Python dictionaries are association lists; `d.get(k, v)` is
  `(l.lookup k).getD v`; `d[k]` is the partial lookup, so a function
  performing it returns an `Option` (`none` = `KeyError`).
* In-place mutation (`score_observable`, `score_case`) is modelled by
  returning the updated entity.
-/

namespace RiskEngine

/-- Modelled from the spec: the external configuration tables of §6
(`risk_engine.config` is not part of the scored core).  `RISK_THRESHOLDS`
is accessed only at the four literal keys, so it is a record of four
cutoffs. -/
structure Config where
  VERDICT_WEIGHTS : List (String × ℚ)
  MALICIOUS_CONSENSUS_THRESHOLD : ℕ
  MALICIOUS_CONSENSUS_BOOST : ℚ
  ASSET_VALUES : List (String × ℚ)
  DEFAULT_ASSET_VALUE : ℚ
  SENSITIVITY_MULTIPLIERS : List (String × ℚ)
  DEFAULT_SENSITIVITY : String
  THRESHOLD_critical : ℚ
  THRESHOLD_high : ℚ
  THRESHOLD_medium : ℚ
  THRESHOLD_low : ℚ
deriving DecidableEq

/-- Modelled from the spec: `AnalyzerResult` of `risk_engine.models`
(§3: analyzer identity, verdict level, numeric score, namespace,
predicate, raw value string). -/
structure AnalyzerResult where
  analyzer_name : String
  level : String
  score : ℚ
  tax_namespace : String
  predicate : String
  raw_value : String
deriving DecidableEq

/-- Modelled from the spec: `ObservableRisk` of `risk_engine.models`
(§3: observable reference, analyzer results, mutable likelihood). -/
structure ObservableRisk where
  observable_id : String
  analyzer_results : List AnalyzerResult
  likelihood : ℚ
deriving DecidableEq

/-- Modelled from the spec: `RiskScore` of `risk_engine.models` (§3). -/
structure RiskScore where
  likelihood : ℚ
  impact_dollars : ℚ
  ale : ℚ
  risk_level : String
deriving DecidableEq

/-- Modelled from the spec: `CaseRiskAssessment` of `risk_engine.models`
(§3: case identifier, title, timestamp, asset type, sensitivity,
observables, optional risk score). -/
structure CaseRiskAssessment where
  case_id : String
  title : String
  timestamp : String
  asset_type : String
  sensitivity : String
  observables : List ObservableRisk
  risk_score : Option RiskScore
deriving DecidableEq

/-- Python `str.lower()` (ASCII case mapping), kept kernel-computable by
mapping `Char.toLower` over the character list. -/
def pyLower (s : String) : String :=
  ⟨s.data.map Char.toLower⟩

/-- Python `round(x, n)` on ℚ: round `x * 10^n` to an integer, divide
back.  Round-half-up; agrees with Python off ties. -/
def roundTo (n : ℕ) (x : ℚ) : ℚ :=
  ((round (x * 10 ^ n) : ℤ) : ℚ) / 10 ^ n

/-- `config.VERDICT_WEIGHTS.get(level, 0.0)` — calculator.py line 47. -/
def verdict_weight (cfg : Config) (level : String) : ℚ :=
  (cfg.VERDICT_WEIGHTS.lookup level).getD 0

/-- The number of distinct analyzer identities reporting "malicious":
`len({r.analyzer_name for r in results if r.level == "malicious"})` —
calculator.py line 53. -/
def unique_malicious (results : List AnalyzerResult) : ℕ :=
  ((results.filter (fun r => r.level = "malicious")).map
    (fun r => r.analyzer_name)).dedup.length

/-- `compute_likelihood` — calculator.py lines 33–62. -/
def compute_likelihood (cfg : Config) (results : List AnalyzerResult) : ℚ :=
  if results.isEmpty then 0
  else
    let weights := results.map (fun r => verdict_weight cfg r.level)
    let avg := weights.sum / (weights.length : ℚ)
    let avg :=
      if cfg.MALICIOUS_CONSENSUS_THRESHOLD ≤ unique_malicious results then
        avg * cfg.MALICIOUS_CONSENSUS_BOOST
      else avg
    min avg 1

/-- `compute_impact` — calculator.py lines 69–80.  Python evaluates the
fallback `config.SENSITIVITY_MULTIPLIERS[config.DEFAULT_SENSITIVITY]`
unconditionally; a missing default tier would be a `KeyError`, modelled
as `none`. -/
def compute_impact (cfg : Config) (asset_type sensitivity : String) : Option ℚ :=
  let base := (cfg.ASSET_VALUES.lookup (pyLower asset_type)).getD cfg.DEFAULT_ASSET_VALUE
  match cfg.SENSITIVITY_MULTIPLIERS.lookup cfg.DEFAULT_SENSITIVITY with
  | none => none
  | some dflt =>
    let multiplier := (cfg.SENSITIVITY_MULTIPLIERS.lookup (pyLower sensitivity)).getD dflt
    some (base * multiplier)

/-- `classify_risk` — calculator.py lines 87–97. -/
def classify_risk (cfg : Config) (ale : ℚ) : String :=
  if cfg.THRESHOLD_critical ≤ ale then "Critical"
  else if cfg.THRESHOLD_high ≤ ale then "High"
  else if cfg.THRESHOLD_medium ≤ ale then "Medium"
  else if cfg.THRESHOLD_low ≤ ale then "Low"
  else "Info"

/-- `score_observable` — calculator.py lines 104–108.  The in-place
write of `observable_risk.likelihood` becomes returning the updated
entity next to the returned likelihood. -/
def score_observable (cfg : Config) (o : ObservableRisk) : ObservableRisk × ℚ :=
  let likelihood := compute_likelihood cfg o.analyzer_results
  ({ o with likelihood := likelihood }, likelihood)

/-- `score_case` — calculator.py lines 111–148.  `none` only when
`compute_impact` would raise (missing default sensitivity tier). -/
def score_case (cfg : Config) (a : CaseRiskAssessment) :
    Option (CaseRiskAssessment × RiskScore) :=
  let scored := a.observables.map (score_observable cfg)
  let likelihoods := scored.map (fun p => p.2)
  let case_likelihood := (likelihoods.max?).getD 0
  match compute_impact cfg a.asset_type a.sensitivity with
  | none => none
  | some impact =>
    let ale := case_likelihood * impact
    let risk : RiskScore :=
      { likelihood := roundTo 4 case_likelihood
        impact_dollars := impact
        ale := roundTo 2 ale
        risk_level := classify_risk cfg ale }
    some ({ a with observables := scored.map (fun p => p.1), risk_score := some risk }, risk)

/-- Rank of a risk-level label, Info < Low < Medium < High < Critical
(spec §8: "severity rank never decreases as ALE increases"). -/
def severity_rank (level : String) : ℕ :=
  if level = "Critical" then 4
  else if level = "High" then 3
  else if level = "Medium" then 2
  else if level = "Low" then 1
  else 0

/-- The four canonical verdict levels — cortex.py line 112. -/
def canonical_levels : List String :=
  ["malicious", "suspicious", "safe", "info"]

/-- Digit string to ℕ (no validation; callers check `Char.isDigit`). -/
def natOfDigits (cs : List Char) : ℕ :=
  cs.foldl (fun n c => 10 * n + (c.toNat - 48)) 0

/-- Python `float(s)` restricted to plain decimal numerals: optional
sign, digits, optional fractional part; `none` models `ValueError`.
(Python also accepts exponents, infinities and surrounding whitespace;
no claim below depends on those, and all statements about parsing are
conditional on this parser's verdict.) -/
def pyFloatChars? (cs : List Char) : Option ℚ :=
  let signed : ℚ × List Char :=
    match cs with
    | '-' :: rest => (-1, rest)
    | '+' :: rest => (1, rest)
    | _ => (1, cs)
  let sign := signed.1
  let ds := signed.2
  match ds.span (fun c => c ≠ '.') with
  | (ip, []) =>
    if ip ≠ [] ∧ ip.all Char.isDigit then some (sign * natOfDigits ip) else none
  | (ip, _ :: fp) =>
    if (ip ≠ [] ∨ fp ≠ []) ∧ ip.all Char.isDigit ∧ fp.all Char.isDigit then
      some (sign * ((natOfDigits ip : ℚ) + (natOfDigits fp : ℚ) / 10 ^ fp.length))
    else none

/-- Python `str.split("/")`: split on every slash, keeping empty
pieces; always returns at least one piece. -/
def splitSlash (cs : List Char) : List (List Char) :=
  match cs with
  | [] => [[]]
  | c :: rest =>
    let r := splitSlash rest
    if c = '/' then [] :: r
    else
      match r with
      | h :: t => (c :: h) :: t
      | [] => [[c]]

/-- `_parse_score` — cortex.py lines 148–157.  `ValueError` and
`ZeroDivisionError` both land on 0.0.  Python reads `parts[0]` and
`parts[1]`, ignoring any further pieces of e.g. `"1/2/3"`. -/
def parse_score (value : String) : ℚ :=
  let cs := value.data
  if cs.contains '/' then
    match splitSlash cs with
    | p0 :: p1 :: _ =>
      match pyFloatChars? p0, pyFloatChars? p1 with
      | some a, some b => if b = 0 then 0 else a / b
      | _, _ => 0
    | _ => 0
  else (pyFloatChars? cs).getD 0

/-- Modelled from the spec and cortex.py's field accesses: one Cortex
taxonomy entry (`level`, `namespace`, `predicate`, `value`), each field
optional since the code reads them with `dict.get` defaults. -/
structure Taxonomy where
  level? : Option String
  tax_namespace? : Option String
  predicate? : Option String
  value? : Option String
deriving DecidableEq

/-- Modelled from cortex.py's field accesses: a Cortex job, reduced to
the fields `extract_verdicts` reads (`analyzerName`, and the
`report.summary.taxonomies` list, each level defaulted by `dict.get`). -/
structure CortexJob where
  analyzerName? : Option String
  taxonomies : List Taxonomy
deriving DecidableEq

/-- `CortexClient.extract_verdicts` — cortex.py lines 91–125. -/
def extract_verdicts (job : CortexJob) : List AnalyzerResult :=
  let analyzer_name := job.analyzerName?.getD "unknown"
  if job.taxonomies.isEmpty then []
  else
    job.taxonomies.map (fun tax =>
      let level0 := pyLower (tax.level?.getD "info")
      let level := if level0 ∈ canonical_levels then level0 else "info"
      { analyzer_name := analyzer_name
        level := level
        score := parse_score (tax.value?.getD "0")
        tax_namespace := tax.tax_namespace?.getD ""
        predicate := tax.predicate?.getD ""
        raw_value := tax.value?.getD "" })


def cfgScenario : Config :=
  { VERDICT_WEIGHTS := [("malicious", 1), ("suspicious", 1/2), ("safe", 0), ("info", 0)]
    MALICIOUS_CONSENSUS_THRESHOLD := 2
    MALICIOUS_CONSENSUS_BOOST := 6/5
    ASSET_VALUES := [("database", 100000), ("server", 50000)]
    DEFAULT_ASSET_VALUE := 10000
    SENSITIVITY_MULTIPLIERS := [("high", 2), ("medium", 1), ("low", 1/2)]
    DEFAULT_SENSITIVITY := "medium"
    THRESHOLD_critical := 500000
    THRESHOLD_high := 100000
    THRESHOLD_medium := 10000
    THRESHOLD_low := 1000 }

def resMal (a : String) : AnalyzerResult :=
  { analyzer_name := a, level := "malicious", score := 1,
    tax_namespace := "", predicate := "", raw_value := "" }

lemma lookup_getD_prop {P : ℚ → Prop} {d : ℚ} (hd : P d)
    (l : List (String × ℚ)) (h : ∀ p ∈ l, P p.2) (k : String) :
    P ((l.lookup k).getD d) := by
  induction l with
  | nil => simpa [List.lookup] using hd
  | cons p t ih =>
    simp only [List.lookup]
    split
    · exact h p (by simp)
    · exact ih (fun q hq => h q (by simp [hq]))

/-- C2: for every input list of analyzer results, with every configured
verdict weight non-negative (and the configured boost factor
non-negative, a consequence of the spec's "boost factor (>1)"),
`compute_likelihood` returns a value in [0, 1], including after
consensus boosting: the final value is clamped to a maximum of 1.0. -/
theorem c2_likelihood_bounds (cfg : Config) (results : List AnalyzerResult)
    (hw : ∀ p ∈ cfg.VERDICT_WEIGHTS, 0 ≤ p.2)
    (hb : 0 ≤ cfg.MALICIOUS_CONSENSUS_BOOST) :
    0 ≤ compute_likelihood cfg results ∧ compute_likelihood cfg results ≤ 1 := by
  unfold compute_likelihood
  split
  · norm_num
  · refine ⟨le_min ?_ (by norm_num), min_le_right _ _⟩
    have havg : 0 ≤ (results.map (fun r => verdict_weight cfg r.level)).sum /
        ((results.map (fun r => verdict_weight cfg r.level)).length : ℚ) := by
      apply div_nonneg
      · apply List.sum_nonneg
        intro x hx
        obtain ⟨r, _, rfl⟩ := List.mem_map.mp hx
        exact lookup_getD_prop le_rfl _ hw _
      · positivity
    split
    · exact mul_nonneg havg hb
    · exact havg

theorem c2_witness :
    0 ≤ compute_likelihood cfgScenario [resMal "a", resMal "b"]
      ∧ compute_likelihood cfgScenario [resMal "a", resMal "b"] ≤ 1 :=
  c2_likelihood_bounds cfgScenario [resMal "a", resMal "b"]
    (by intro p hp; fin_cases hp <;> norm_num)
    (by norm_num [cfgScenario])

/-- C3: `compute_likelihood` multiplies the arithmetic mean of the
verdict weights by the configured boost factor if and only if the
number of distinct analyzer identities reporting "malicious" reaches
the configured consensus threshold; below the threshold the result is
the unmodified weighted mean (weights are assumed ≤ 1 so the clamp is
inactive there).  Third conjunct: the spec's concrete scenario A —
weights {malicious 1, suspicious 0.5, safe 0, info 0}, threshold 2,
boost 1.2, two distinct malicious analyzers give mean 1, boosted 1.2,
clamped to 1. -/
theorem c3_consensus_iff (cfg : Config) (results : List AnalyzerResult)
    (hne : results ≠ [])
    (hw1 : ∀ p ∈ cfg.VERDICT_WEIGHTS, p.2 ≤ 1) :
    (unique_malicious results < cfg.MALICIOUS_CONSENSUS_THRESHOLD →
        compute_likelihood cfg results =
          (results.map (fun r => verdict_weight cfg r.level)).sum / (results.length : ℚ))
    ∧ (cfg.MALICIOUS_CONSENSUS_THRESHOLD ≤ unique_malicious results →
        compute_likelihood cfg results =
          min ((results.map (fun r => verdict_weight cfg r.level)).sum / (results.length : ℚ)
            * cfg.MALICIOUS_CONSENSUS_BOOST) 1)
    ∧ compute_likelihood cfgScenario [resMal "a", resMal "b"] = 1 := by
  have hlenpos : 0 < (results.length : ℚ) := by
    have := List.length_pos.mpr hne
    exact_mod_cast this
  have hempty : results.isEmpty = false := by
    cases results with
    | nil => exact absurd rfl hne
    | cons x xs => rfl
  have havg1 : (results.map (fun r => verdict_weight cfg r.level)).sum / (results.length : ℚ) ≤ 1 := by
    rw [div_le_one hlenpos]
    calc (results.map (fun r => verdict_weight cfg r.level)).sum
        ≤ (results.map (fun r => verdict_weight cfg r.level)).length • (1 : ℚ) := by
          apply List.sum_le_card_nsmul
          intro x hx
          obtain ⟨r, _, rfl⟩ := List.mem_map.mp hx
          exact lookup_getD_prop (P := fun q => q ≤ 1) (by norm_num) _ hw1 _
      _ = (results.length : ℚ) := by simp
  refine ⟨?_, ?_, ?_⟩
  · intro hlt
    unfold compute_likelihood
    rw [hempty]
    simp only [Bool.false_eq_true, if_false, List.length_map]
    rw [if_neg (by omega), min_eq_left (by simpa [List.length_map] using havg1)]
  · intro hge
    unfold compute_likelihood
    rw [hempty]
    simp only [Bool.false_eq_true, if_false, List.length_map]
    rw [if_pos hge]
  · simp [compute_likelihood, verdict_weight, unique_malicious, List.lookup, cfgScenario, resMal]
    norm_num

theorem c3_witness :
    (unique_malicious [resMal "a"] < cfgScenario.MALICIOUS_CONSENSUS_THRESHOLD →
        compute_likelihood cfgScenario [resMal "a"] =
          ([resMal "a"].map (fun r => verdict_weight cfgScenario r.level)).sum
            / (([resMal "a"] : List AnalyzerResult).length : ℚ))
    ∧ (cfgScenario.MALICIOUS_CONSENSUS_THRESHOLD ≤ unique_malicious [resMal "a"] →
        compute_likelihood cfgScenario [resMal "a"] =
          min (([resMal "a"].map (fun r => verdict_weight cfgScenario r.level)).sum
            / (([resMal "a"] : List AnalyzerResult).length : ℚ)
            * cfgScenario.MALICIOUS_CONSENSUS_BOOST) 1)
    ∧ compute_likelihood cfgScenario [resMal "a", resMal "b"] = 1 :=
  c3_consensus_iff cfgScenario [resMal "a"]
    (by decide)
    (by intro p hp; fin_cases hp <;> norm_num)


lemma rank_classify (cfg : Config) (ale : ℚ) :
    severity_rank (classify_risk cfg ale) =
      if cfg.THRESHOLD_critical ≤ ale then 4
      else if cfg.THRESHOLD_high ≤ ale then 3
      else if cfg.THRESHOLD_medium ≤ ale then 2
      else if cfg.THRESHOLD_low ≤ ale then 1
      else 0 := by
  unfold classify_risk severity_rank
  split_ifs <;> simp_all

/-- C4: `classify_risk` checks the four cutoffs in the fixed order
critical, high, medium, low (returning Critical, High, Medium, Low,
else Info — conjuncts 2 to 6) and is monotonic in ALE under monotonic
thresholds: the severity rank of the classification never decreases as
ALE increases (conjunct 1). -/
theorem c4_classify_monotone (cfg : Config) (ale1 ale2 : ℚ)
    (hch : cfg.THRESHOLD_high ≤ cfg.THRESHOLD_critical)
    (hhm : cfg.THRESHOLD_medium ≤ cfg.THRESHOLD_high)
    (hml : cfg.THRESHOLD_low ≤ cfg.THRESHOLD_medium)
    (h12 : ale1 ≤ ale2) :
    severity_rank (classify_risk cfg ale1) ≤ severity_rank (classify_risk cfg ale2)
    ∧ (cfg.THRESHOLD_critical ≤ ale1 → classify_risk cfg ale1 = "Critical")
    ∧ (cfg.THRESHOLD_high ≤ ale1 ∧ ale1 < cfg.THRESHOLD_critical → classify_risk cfg ale1 = "High")
    ∧ (cfg.THRESHOLD_medium ≤ ale1 ∧ ale1 < cfg.THRESHOLD_high → classify_risk cfg ale1 = "Medium")
    ∧ (cfg.THRESHOLD_low ≤ ale1 ∧ ale1 < cfg.THRESHOLD_medium → classify_risk cfg ale1 = "Low")
    ∧ (ale1 < cfg.THRESHOLD_low → classify_risk cfg ale1 = "Info") := by
  refine ⟨?_, ?_, ?_, ?_, ?_, ?_⟩
  · rw [rank_classify, rank_classify]
    split_ifs <;> first | omega | linarith
  · intro h
    unfold classify_risk
    rw [if_pos h]
  · intro h
    unfold classify_risk
    rw [if_neg (by linarith), if_pos h.1]
  · intro h
    unfold classify_risk
    rw [if_neg (by linarith), if_neg (by linarith), if_pos h.1]
  · intro h
    unfold classify_risk
    rw [if_neg (by linarith), if_neg (by linarith), if_neg (by linarith), if_pos h.1]
  · intro h
    unfold classify_risk
    rw [if_neg (by linarith), if_neg (by linarith), if_neg (by linarith), if_neg (by linarith)]

theorem c4_witness :
    severity_rank (classify_risk cfgScenario 50000) ≤ severity_rank (classify_risk cfgScenario 150000)
    ∧ (cfgScenario.THRESHOLD_critical ≤ (50000:ℚ) → classify_risk cfgScenario 50000 = "Critical")
    ∧ (cfgScenario.THRESHOLD_high ≤ (50000:ℚ) ∧ (50000:ℚ) < cfgScenario.THRESHOLD_critical →
        classify_risk cfgScenario 50000 = "High")
    ∧ (cfgScenario.THRESHOLD_medium ≤ (50000:ℚ) ∧ (50000:ℚ) < cfgScenario.THRESHOLD_high →
        classify_risk cfgScenario 50000 = "Medium")
    ∧ (cfgScenario.THRESHOLD_low ≤ (50000:ℚ) ∧ (50000:ℚ) < cfgScenario.THRESHOLD_medium →
        classify_risk cfgScenario 50000 = "Low")
    ∧ ((50000:ℚ) < cfgScenario.THRESHOLD_low → classify_risk cfgScenario 50000 = "Info") :=
  c4_classify_monotone cfgScenario 50000 150000
    (by norm_num [cfgScenario]) (by norm_num [cfgScenario]) (by norm_num [cfgScenario])
    (by norm_num)


/-- C5: `score_case` scores every owned observable in stored order via
`score_observable` (writing each observable's likelihood field, conjunct
1) and sets the case-level likelihood to the maximum of the collected
per-observable likelihoods (conjuncts 2 and 3, through the 4- and
2-decimal reporting rounding of the `RiskScore` fields), or 0.0 if the
assessment owns no observables (conjunct 4). -/
theorem c5_case_likelihood_max (cfg : Config) (a a' : CaseRiskAssessment) (rs : RiskScore)
    (h : score_case cfg a = some (a', rs)) :
    a'.observables.map (fun o => o.likelihood)
        = a.observables.map (fun o => compute_likelihood cfg o.analyzer_results)
    ∧ rs.likelihood = roundTo 4
        (((a.observables.map (fun o => compute_likelihood cfg o.analyzer_results)).max?).getD 0)
    ∧ rs.ale = roundTo 2
        ((((a.observables.map (fun o => compute_likelihood cfg o.analyzer_results)).max?).getD 0)
          * rs.impact_dollars)
    ∧ (a.observables = [] → rs.likelihood = 0) := by
  unfold score_case at h
  cases hc : compute_impact cfg a.asset_type a.sensitivity with
  | none => rw [hc] at h; exact absurd h (by simp)
  | some impact =>
    rw [hc] at h
    simp only [Option.some.injEq, Prod.mk.injEq] at h
    obtain ⟨ha', hrs⟩ := h
    subst ha' hrs
    have hcomp : ((fun p : ObservableRisk × ℚ => p.2) ∘ score_observable cfg)
        = (fun o : ObservableRisk => compute_likelihood cfg o.analyzer_results) := by
      funext o; simp [score_observable]
    refine ⟨?_, ?_, ?_, ?_⟩
    · simp [score_observable, List.map_map, Function.comp]
    · simp [List.map_map, hcomp]
    · simp [List.map_map, hcomp]
    · intro h0
      simp [h0, roundTo]

def resLvl (a level : String) : AnalyzerResult :=
  { analyzer_name := a, level := level, score := 0,
    tax_namespace := "", predicate := "", raw_value := "" }

def obsW (i : String) (rs : List AnalyzerResult) : ObservableRisk :=
  { observable_id := i, analyzer_results := rs, likelihood := 0 }

def cfgMaxW : Config :=
  { VERDICT_WEIGHTS := [("l1", 1/10), ("l2", 9/10), ("l3", 3/10)]
    MALICIOUS_CONSENSUS_THRESHOLD := 5
    MALICIOUS_CONSENSUS_BOOST := 6/5
    ASSET_VALUES := [("db", 1000)]
    DEFAULT_ASSET_VALUE := 500
    SENSITIVITY_MULTIPLIERS := [("m", 1)]
    DEFAULT_SENSITIVITY := "m"
    THRESHOLD_critical := 500000
    THRESHOLD_high := 100000
    THRESHOLD_medium := 10000
    THRESHOLD_low := 1000 }

def caseMax : CaseRiskAssessment :=
  { case_id := "c", title := "t", timestamp := "ts", asset_type := "db", sensitivity := "m",
    observables := [obsW "o1" [resLvl "a" "l1"], obsW "o2" [resLvl "a" "l2"], obsW "o3" [resLvl "a" "l3"]],
    risk_score := none }

def riskMax : RiskScore :=
  { likelihood := 9/10, impact_dollars := 1000, ale := 900, risk_level := "Info" }

def caseMaxScored : CaseRiskAssessment :=
  { caseMax with
    observables := [{ obsW "o1" [resLvl "a" "l1"] with likelihood := 1/10 },
                    { obsW "o2" [resLvl "a" "l2"] with likelihood := 9/10 },
                    { obsW "o3" [resLvl "a" "l3"] with likelihood := 3/10 }]
    risk_score := some riskMax }

theorem c5_witness :
    score_case cfgMaxW caseMax = some (caseMaxScored, riskMax)
    ∧ riskMax.likelihood = roundTo 4
        (((caseMax.observables.map (fun o => compute_likelihood cfgMaxW o.analyzer_results)).max?).getD 0)
    ∧ riskMax.likelihood = 9/10 := by
  have h : score_case cfgMaxW caseMax = some (caseMaxScored, riskMax) := by
    simp [score_case, score_observable, compute_likelihood, compute_impact, classify_risk,
      verdict_weight, unique_malicious, List.lookup, cfgMaxW, caseMax, caseMaxScored, riskMax,
      resLvl, obsW, roundTo, round_eq,
      show pyLower "db" = "db" from by decide,
      show pyLower "m" = "m" from by decide]
    norm_num [Int.floor_eq_iff]
  exact ⟨h, (c5_case_likelihood_max cfgMaxW caseMax caseMaxScored riskMax h).2.1,
    by norm_num [riskMax]⟩


/-- C6: `compute_impact` is a pure function (its embedding is a plain
function of its arguments), case-insensitive in both arguments
(conjunct 1: the result depends only on the lower-cased inputs); it
returns the base dollar value looked up by the lower-cased asset type,
falling back to the configured default value when unrecognized,
multiplied by the multiplier looked up by the lower-cased sensitivity
tier, falling back to the configured default tier's multiplier when
unrecognized (conjunct 2: `List.lookup _ = none` makes `getD` produce
exactly those fallbacks). -/
theorem c6_impact_pure_case_insensitive (cfg : Config) :
    (∀ a1 s1 a2 s2 : String, pyLower a1 = pyLower a2 → pyLower s1 = pyLower s2 →
        compute_impact cfg a1 s1 = compute_impact cfg a2 s2)
    ∧ (∀ (a s : String) (dflt : ℚ),
        cfg.SENSITIVITY_MULTIPLIERS.lookup cfg.DEFAULT_SENSITIVITY = some dflt →
        compute_impact cfg a s =
          some (((cfg.ASSET_VALUES.lookup (pyLower a)).getD cfg.DEFAULT_ASSET_VALUE)
            * ((cfg.SENSITIVITY_MULTIPLIERS.lookup (pyLower s)).getD dflt))) := by
  constructor
  · intro a1 s1 a2 s2 ha hs
    unfold compute_impact
    rw [ha, hs]
  · intro a s dflt hd
    unfold compute_impact
    rw [hd]

theorem c6_witness :
    compute_impact cfgScenario "DataBase" "HIGH" = compute_impact cfgScenario "database" "high"
    ∧ compute_impact cfgScenario "database" "high" =
        some (((cfgScenario.ASSET_VALUES.lookup (pyLower "database")).getD cfgScenario.DEFAULT_ASSET_VALUE)
          * ((cfgScenario.SENSITIVITY_MULTIPLIERS.lookup (pyLower "high")).getD 1))
    ∧ compute_impact cfgScenario "database" "high" = some 200000 :=
  ⟨(c6_impact_pure_case_insensitive cfgScenario).1 "DataBase" "HIGH" "database" "high"
      (by decide) (by decide),
   (c6_impact_pure_case_insensitive cfgScenario).2 "database" "high" 1 (by simp [cfgScenario, List.lookup]),
   by simp [compute_impact, cfgScenario, List.lookup,
        show pyLower "database" = "database" from by decide,
        show pyLower "high" = "high" from by decide]
      norm_num⟩

/-- C7: for every `CaseRiskAssessment` that owns no observables,
`score_case` produces a `RiskScore` with case likelihood 0.0, ALE 0.0
and risk level "Info".  Config-side preconditions: the default
sensitivity tier exists (otherwise Python's `compute_impact` raises),
and the cutoffs are monotone with a positive low cutoff (the spec's
"four ascending ALE cutoffs" for dollar amounts), without which 0
would already reach a bucket above Info. -/
theorem c7_empty_case_info (cfg : Config) (a : CaseRiskAssessment)
    (hobs : a.observables = [])
    (hd : (cfg.SENSITIVITY_MULTIPLIERS.lookup cfg.DEFAULT_SENSITIVITY).isSome)
    (h1 : 0 < cfg.THRESHOLD_low)
    (h2 : cfg.THRESHOLD_low ≤ cfg.THRESHOLD_medium)
    (h3 : cfg.THRESHOLD_medium ≤ cfg.THRESHOLD_high)
    (h4 : cfg.THRESHOLD_high ≤ cfg.THRESHOLD_critical) :
    ∃ a' rs, score_case cfg a = some (a', rs)
      ∧ rs.likelihood = 0 ∧ rs.ale = 0 ∧ rs.risk_level = "Info" := by
  obtain ⟨m, hm⟩ := Option.isSome_iff_exists.mp hd
  have himpact : ∃ v, compute_impact cfg a.asset_type a.sensitivity = some v := by
    unfold compute_impact
    rw [hm]
    exact ⟨_, rfl⟩
  obtain ⟨v, hv⟩ := himpact
  have hclass : classify_risk cfg 0 = "Info" := by
    unfold classify_risk
    rw [if_neg (by linarith), if_neg (by linarith), if_neg (by linarith), if_neg (by linarith)]
  refine ⟨{ a with observables := [], risk_score := some ⟨0, v, 0, "Info"⟩ },
    ⟨0, v, 0, "Info"⟩, ?_, rfl, rfl, rfl⟩
  simp [score_case, hobs, hv, roundTo, hclass]

theorem c7_witness :
    ∃ a' rs, score_case cfgScenario
        { case_id := "c0", title := "t", timestamp := "ts", asset_type := "db",
          sensitivity := "s", observables := [], risk_score := none } = some (a', rs)
      ∧ rs.likelihood = 0 ∧ rs.ale = 0 ∧ rs.risk_level = "Info" :=
  c7_empty_case_info cfgScenario _
    rfl (by simp [cfgScenario, List.lookup])
    (by norm_num [cfgScenario]) (by norm_num [cfgScenario])
    (by norm_num [cfgScenario]) (by norm_num [cfgScenario])

/-- C8: the scoring path raises no exception: `compute_likelihood`,
`classify_risk` and `score_observable` are total by construction, and
`compute_impact` and `score_case` (its only fallible call) always
succeed provided the configured default sensitivity tier is present in
the multiplier table (conjuncts 1 and 2); a verdict level absent from
the configured weight table contributes weight 0 rather than being
rejected (conjunct 3). -/
theorem c8_no_exceptions (cfg : Config) (a : CaseRiskAssessment)
    (hd : (cfg.SENSITIVITY_MULTIPLIERS.lookup cfg.DEFAULT_SENSITIVITY).isSome) :
    (∀ at_ s : String, (compute_impact cfg at_ s).isSome)
    ∧ (score_case cfg a).isSome
    ∧ (∀ level : String, cfg.VERDICT_WEIGHTS.lookup level = none →
        verdict_weight cfg level = 0) := by
  obtain ⟨m, hm⟩ := Option.isSome_iff_exists.mp hd
  have himp : ∀ at_ s : String, (compute_impact cfg at_ s).isSome := by
    intro at_ s
    unfold compute_impact
    rw [hm]
    rfl
  refine ⟨himp, ?_, ?_⟩
  · have := himp a.asset_type a.sensitivity
    obtain ⟨v, hv⟩ := Option.isSome_iff_exists.mp this
    simp [score_case, hv]
  · intro level hl
    simp [verdict_weight, hl]

theorem c8_witness :
    (∀ at_ s : String, (compute_impact cfgScenario at_ s).isSome)
    ∧ (score_case cfgScenario caseMax).isSome
    ∧ (∀ level : String, cfgScenario.VERDICT_WEIGHTS.lookup level = none →
        verdict_weight cfgScenario level = 0) :=
  c8_no_exceptions cfgScenario caseMax (by simp [cfgScenario, List.lookup])


/-- C9: `_parse_score` never raises (it is a total function of the
value string) and tolerates malformed input: a fraction string "a/b" is
interpreted as a divided by b (conjunct 3; Python reads only the first
two slash-separated pieces), a non-numeric value yields 0.0 (conjuncts
1 and 5: parse failure of the whole string or of the numerator), a zero
denominator yields 0.0 (conjunct 4, Python's ZeroDivisionError branch),
and a plain numeric string parses to its value (conjunct 2). -/
theorem c9_parse_score_tolerant (v : String) (p0 p1 : List Char)
    (rest : List (List Char)) (a b : ℚ) :
    (v.data.contains '/' = false → pyFloatChars? v.data = none → parse_score v = 0)
    ∧ (v.data.contains '/' = false → pyFloatChars? v.data = some a → parse_score v = a)
    ∧ (v.data.contains '/' = true → splitSlash v.data = p0 :: p1 :: rest →
        pyFloatChars? p0 = some a → pyFloatChars? p1 = some b → b ≠ 0 →
        parse_score v = a / b)
    ∧ (v.data.contains '/' = true → splitSlash v.data = p0 :: p1 :: rest →
        pyFloatChars? p0 = some a → pyFloatChars? p1 = some 0 →
        parse_score v = 0)
    ∧ (v.data.contains '/' = true → splitSlash v.data = p0 :: p1 :: rest →
        pyFloatChars? p0 = none → parse_score v = 0) := by
  refine ⟨?_, ?_, ?_, ?_, ?_⟩
  · intro hc hp
    have hc' : ¬ '/' ∈ v.data := by simpa using hc
    simp [parse_score, hc', hp]
  · intro hc hp
    have hc' : ¬ '/' ∈ v.data := by simpa using hc
    simp [parse_score, hc', hp]
  · intro hc hs hp0 hp1 hb
    have hc' : '/' ∈ v.data := by simpa using hc
    simp [parse_score, hc', hs, hp0, hp1, hb]
  · intro hc hs hp0 hp1
    have hc' : '/' ∈ v.data := by simpa using hc
    simp [parse_score, hc', hs, hp0, hp1]
  · intro hc hs hp0
    have hc' : '/' ∈ v.data := by simpa using hc
    simp [parse_score, hc', hs, hp0]

theorem c9_witness :
    parse_score "5/100" = 5 / 100 ∧ parse_score "abc" = 0 ∧ parse_score "5/0" = 0 := by
  have h5 : pyFloatChars? ['5'] = some 5 := by
    have : pyFloatChars? ['5'] = some (1 * ((natOfDigits ['5'] : ℕ) : ℚ)) := rfl
    rw [this, show natOfDigits ['5'] = 5 from by decide]
    norm_num
  have h100 : pyFloatChars? ['1', '0', '0'] = some 100 := by
    have : pyFloatChars? ['1', '0', '0'] = some (1 * ((natOfDigits ['1', '0', '0'] : ℕ) : ℚ)) := rfl
    rw [this, show natOfDigits ['1', '0', '0'] = 100 from by decide]
    norm_num
  have h0 : pyFloatChars? ['0'] = some 0 := by
    have : pyFloatChars? ['0'] = some (1 * ((natOfDigits ['0'] : ℕ) : ℚ)) := rfl
    rw [this, show natOfDigits ['0'] = 0 from by decide]
    norm_num
  refine ⟨?_, ?_, ?_⟩
  · exact (c9_parse_score_tolerant "5/100" ['5'] ['1', '0', '0'] [] 5 100).2.2.1
      (by decide) (by decide) h5 h100 (by norm_num)
  · exact (c9_parse_score_tolerant "abc" [] [] [] 0 0).1 (by decide) (by decide)
  · exact (c9_parse_score_tolerant "5/0" ['5'] ['0'] [] 5 0).2.2.2.1
      (by decide) (by decide) h5 h0

/-- C10: every `AnalyzerResult` produced by `extract_verdicts` has a
level among the four canonical values (conjunct 1): the taxonomy level
is lower-cased and any value outside the four — including a missing
level field, defaulted to "info" — is replaced by "info" (conjunct 3)
rather than dropped (conjunct 2: one result per taxonomy entry), so
downstream aggregation sees the info weight, not the unknown-level
weight 0, for unknown levels. -/
theorem c10_extracted_levels_canonical (job : CortexJob) :
    (∀ r ∈ extract_verdicts job, r.level ∈ canonical_levels)
    ∧ (extract_verdicts job).length = job.taxonomies.length
    ∧ (∀ i (hi : i < job.taxonomies.length) (hj : i < (extract_verdicts job).length),
        ((extract_verdicts job).get ⟨i, hj⟩).level =
          (if pyLower ((job.taxonomies.get ⟨i, hi⟩).level?.getD "info") ∈ canonical_levels
           then pyLower ((job.taxonomies.get ⟨i, hi⟩).level?.getD "info")
           else "info")) := by
  unfold extract_verdicts
  by_cases he : job.taxonomies.isEmpty
  · have : job.taxonomies = [] := by simpa [List.isEmpty_iff] using he
    simp [he, this]
  · simp only [he, Bool.false_eq_true, if_false]
    refine ⟨?_, by simp, ?_⟩
    · intro r hr
      obtain ⟨tax, _, rfl⟩ := List.mem_map.mp hr
      simp only
      split
      · assumption
      · simp [canonical_levels]
    · intro i hi hj
      have hne : job.taxonomies ≠ [] := by simpa [List.isEmpty_iff] using he
      simp [List.get_eq_getElem, List.getElem_map, hne]

def jobW : CortexJob :=
  { analyzerName? := some "VT"
    taxonomies :=
      [{ level? := some "MaLiCiOuS", tax_namespace? := some "ns", predicate? := some "p",
         value? := some "3" },
       { level? := some "weird", tax_namespace? := none, predicate? := none, value? := none },
       { level? := none, tax_namespace? := none, predicate? := none, value? := some "5/100" }] }

theorem c10_witness :
    ((extract_verdicts jobW).get ⟨0, by decide⟩).level = "malicious"
    ∧ ((extract_verdicts jobW).get ⟨1, by decide⟩).level = "info"
    ∧ ((extract_verdicts jobW).get ⟨2, by decide⟩).level = "info"
    ∧ (extract_verdicts jobW).length = jobW.taxonomies.length := by
  have h := c10_extracted_levels_canonical jobW
  exact ⟨(h.2.2 0 (by decide) (by decide)).trans (by decide),
    (h.2.2 1 (by decide) (by decide)).trans (by decide),
    (h.2.2 2 (by decide) (by decide)).trans (by decide),
    h.2.1⟩

def cfgC1 : Config :=
  { VERDICT_WEIGHTS := [("malicious", 499998/1000000)]
    MALICIOUS_CONSENSUS_THRESHOLD := 5
    MALICIOUS_CONSENSUS_BOOST := 6/5
    ASSET_VALUES := [("server", 2000)]
    DEFAULT_ASSET_VALUE := 1000
    SENSITIVITY_MULTIPLIERS := [("low", 1)]
    DEFAULT_SENSITIVITY := "low"
    THRESHOLD_critical := 500000
    THRESHOLD_high := 100000
    THRESHOLD_medium := 10000
    THRESHOLD_low := 1000 }

def caseC1 : CaseRiskAssessment :=
  { case_id := "c", title := "t", timestamp := "ts", asset_type := "server", sensitivity := "low",
    observables := [obsW "o" [resMal "a"]], risk_score := none }

/-- C1 counterexample: the claim "risk_level is `classify_risk` of the
ALE rounded to 2 decimal places" fails on the code.  `score_case`
classifies the UNROUNDED ALE (calculator.py line 136 uses `ale`, not
`round(ale, 2)`).  With weight 0.499998 for "malicious", impact 2000
and low cutoff 1000, the unrounded ALE is 999.996 (classified "Info")
while the reported ALE rounds to 1000.00, which classifies as "Low":
the reported number and reported category disagree. -/
theorem c1_counterexample :
    (score_case cfgC1 caseC1).map (fun p => (p.2.risk_level, p.2.ale, classify_risk cfgC1 p.2.ale))
      = some ("Info", 1000, "Low")
    ∧ (score_case cfgC1 caseC1).map (fun p => p.2.risk_level)
      ≠ (score_case cfgC1 caseC1).map (fun p => classify_risk cfgC1 p.2.ale) := by
  have h : score_case cfgC1 caseC1 = some
      ({ caseC1 with
          observables := [{ obsW "o" [resMal "a"] with likelihood := 499998/1000000 }]
          risk_score := some ⟨1/2, 2000, 1000, "Info"⟩ },
        ⟨1/2, 2000, 1000, "Info"⟩) := by
    simp [score_case, score_observable, compute_likelihood, compute_impact, classify_risk,
      verdict_weight, unique_malicious, List.lookup, cfgC1, caseC1, resMal, obsW,
      roundTo, round_eq,
      show pyLower "server" = "server" from by decide,
      show pyLower "low" = "low" from by decide]
    norm_num [Int.floor_eq_iff]
  rw [h]
  constructor
  · simp only [Option.map_some]
    refine congrArg some ?_
    have : classify_risk cfgC1 (1000 : ℚ) = "Low" := by
      simp [classify_risk, cfgC1]
      norm_num
    simp [this]
  · simp only [Option.map_some, ne_eq, Option.some.injEq]
    have : classify_risk cfgC1 (1000 : ℚ) = "Low" := by
      simp [classify_risk, cfgC1]
      norm_num
    simp [this]

/-- C1 (amended): for every `CaseRiskAssessment`, the risk_level field
of the `RiskScore` produced by `score_case` is `classify_risk` applied
to the UNROUNDED ALE — the maximum per-observable likelihood times the
impact (recoverable as `rs.impact_dollars`) — not to the rounded ALE
stored in the `ale` field, so the reported number and category can
disagree when rounding crosses a cutoff. -/
theorem c1_amended_unrounded_classification (cfg : Config) (a a' : CaseRiskAssessment)
    (rs : RiskScore) (h : score_case cfg a = some (a', rs)) :
    rs.risk_level = classify_risk cfg
      ((((a.observables.map (fun o => compute_likelihood cfg o.analyzer_results)).max?).getD 0)
        * rs.impact_dollars) := by
  unfold score_case at h
  cases hc : compute_impact cfg a.asset_type a.sensitivity with
  | none => rw [hc] at h; exact absurd h (by simp)
  | some impact =>
    rw [hc] at h
    simp only [Option.some.injEq, Prod.mk.injEq] at h
    obtain ⟨ha', hrs⟩ := h
    subst ha' hrs
    have hcomp : ((fun p : ObservableRisk × ℚ => p.2) ∘ score_observable cfg)
        = (fun o : ObservableRisk => compute_likelihood cfg o.analyzer_results) := by
      funext o; simp [score_observable]
    simp [List.map_map, hcomp]

theorem c1_witness :
    (score_case cfgC1 caseC1).map (fun p => p.2.risk_level)
      = (score_case cfgC1 caseC1).map (fun p => classify_risk cfgC1
          ((((caseC1.observables.map
              (fun o => compute_likelihood cfgC1 o.analyzer_results)).max?).getD 0)
            * p.2.impact_dollars)) := by
  cases hsc : score_case cfgC1 caseC1 with
  | none =>
    rfl
  | some pr =>
    have h1 := c1_amended_unrounded_classification cfgC1 caseC1 pr.1 pr.2 (by rw [hsc])
    simp [h1]

end RiskEngine
